import Mathlib

/-!
Shallow embedding of `src/components/hal/esp32s3/include/hal/usb_wrap_ll.h`,
the ESP32-S3 USB Wrap low-level HAL.  Each hardware register is a word
(`Nat`, bits beyond the hardware width never written), each C bitfield
assignment `reg.field = v` is a `setField` on that word, and each HAL
function is embedded as the list of register writes it performs, in source
order, so that both the final register state and the write ordering are
available to the theorems.
-/

namespace UsbWrapLL

/-- Read the bitfield of width `wd` starting at bit `lo` of word `w`. -/
def getField (w lo wd : Nat) : Nat := (w >>> lo) % 2 ^ wd

/-- Write value `v` (truncated to `wd` bits, as a C unsigned-bitfield
assignment does) into the bitfield of width `wd` at bit `lo` of word `w`,
leaving all other bits of `w` unchanged. -/
def setField (w lo wd v : Nat) : Nat :=
  (w % 2 ^ lo) ||| ((v % 2 ^ wd) <<< lo) ||| ((w >>> (lo + wd)) <<< (lo + wd))

/-- A named bitfield: low bit position and width. -/
structure RegField where
  lo : Nat
  wd : Nat
deriving DecidableEq

/-- Read a named bitfield out of a register word. -/
def RegField.get (f : RegField) (w : Nat) : Nat := getField w f.lo f.wd

/-- Write a named bitfield of a register word. -/
def RegField.set (f : RegField) (w v : Nat) : Nat := setField w f.lo f.wd v

/-- Bits of `setField` strictly below the written field are unchanged. -/
theorem testBit_setField_low {w lo wd v i : Nat} (h : i < lo) :
    (setField w lo wd v).testBit i = w.testBit i := by
  have h2 : ¬ lo ≤ i := by omega
  have h3 : ¬ lo + wd ≤ i := by omega
  simp [setField, h, h2, h3]

/-- Bits of `setField` at or above the top of the written field are
unchanged. -/
theorem testBit_setField_high {w lo wd v i : Nat} (h : lo + wd ≤ i) :
    (setField w lo wd v).testBit i = w.testBit i := by
  have h1 : ¬ i < lo := by omega
  have h2 : lo ≤ i := by omega
  have h4 : ¬ i - lo < wd := by omega
  have h5 : lo + wd + (i - (lo + wd)) = i := by omega
  simp [setField, h1, h2, h, h4, h5]

/-- Bits of `setField` inside the written field come from the written
value. -/
theorem testBit_setField_mid {w lo wd v i : Nat} (h1 : lo ≤ i)
    (h2 : i < lo + wd) : (setField w lo wd v).testBit i = v.testBit (i - lo) := by
  have h3 : ¬ i < lo := by omega
  have h4 : ¬ lo + wd ≤ i := by omega
  have h5 : i - lo < wd := by omega
  simp [setField, h1, h3, h4, h5]

/-- Reading back the field just written returns the value truncated to the
field width. -/
theorem getField_setField_self (w lo wd v : Nat) :
    getField (setField w lo wd v) lo wd = v % 2 ^ wd := by
  unfold getField
  apply Nat.eq_of_testBit_eq
  intro j
  simp only [Nat.testBit_mod_two_pow, Nat.testBit_shiftRight]
  by_cases hj : j < wd
  · rw [testBit_setField_mid (by omega) (by omega)]
    congr 2
    omega
  · simp [hj]

/-- Reading a field disjoint from the one just written returns its old
value. -/
theorem getField_setField_frame {lo wd lo' wd' : Nat} (w v : Nat)
    (hdisj : lo' + wd' ≤ lo ∨ lo + wd ≤ lo') :
    getField (setField w lo wd v) lo' wd' = getField w lo' wd' := by
  unfold getField
  apply Nat.eq_of_testBit_eq
  intro j
  simp only [Nat.testBit_mod_two_pow, Nat.testBit_shiftRight]
  by_cases hj : j < wd'
  · rcases hdisj with h | h
    · rw [testBit_setField_low (by omega)]
    · rw [testBit_setField_high (by omega)]
  · simp [hj]

/-- A field value is bounded by its width. -/
theorem getField_lt (w lo wd : Nat) : getField w lo wd < 2 ^ wd :=
  Nat.mod_lt _ (Nat.pos_pow_of_pos wd (by decide))

/-- The five hardware registers the HAL touches: `otg_conf` and
`test_conf` in the USB Wrap bank, `usb_conf` in the RTC bank
(`RTCCNTL.usb_conf`), and `perip_clk_en0` / `perip_rst_en0` in the system
clock/reset bank (`SYSTEM`). -/
inductive Reg where
  | otg_conf
  | test_conf
  | usb_conf
  | perip_clk_en0
  | perip_rst_en0
deriving DecidableEq

/-- The register state: one word per register across the three banks. -/
structure State where
  otg_conf : Nat
  test_conf : Nat
  usb_conf : Nat
  perip_clk_en0 : Nat
  perip_rst_en0 : Nat
deriving DecidableEq

/-- Read a register word from the state. -/
def State.getReg (s : State) : Reg → Nat
  | .otg_conf => s.otg_conf
  | .test_conf => s.test_conf
  | .usb_conf => s.usb_conf
  | .perip_clk_en0 => s.perip_clk_en0
  | .perip_rst_en0 => s.perip_rst_en0

/-- Replace a register word in the state. -/
def State.setReg (s : State) (r : Reg) (w : Nat) : State :=
  match r with
  | .otg_conf => { s with otg_conf := w }
  | .test_conf => { s with test_conf := w }
  | .usb_conf => { s with usb_conf := w }
  | .perip_clk_en0 => { s with perip_clk_en0 := w }
  | .perip_rst_en0 => { s with perip_rst_en0 := w }

/-- One observable register write: either a bitfield assignment
`reg.field = v` or a whole-word assignment `reg.val = v`. -/
inductive WriteEvent where
  | field (r : Reg) (f : RegField) (v : Nat)
  | word (r : Reg) (v : Nat)
deriving DecidableEq

/-- Apply one write to the register state. -/
def applyWrite (s : State) : WriteEvent → State
  | .field r f v => s.setReg r (f.set (s.getReg r) v)
  | .word r v => s.setReg r v

/-- Apply a write trace in order. -/
def applyWrites (s : State) (es : List WriteEvent) : State :=
  es.foldl applyWrite s

/-!
The register-map declarations (`soc/usb_wrap_struct.h`,
`soc/rtc_cntl_struct.h`, `soc/system_struct.h`) referenced by the header
are not under `src/`; the spec treats each register as "a fixed-width word
with named sub-ranges (bitfields) at documented bit offsets" that are
mutually disjoint, with `vrefh` and `vrefl` two bits wide ("Step values
are a 2-bit quantity") and every other named field one bit wide.  The
offsets below realise that layout; no theorem depends on the particular
offsets, only on their disjointness and widths.
-/

namespace otg_conf

/-- Modelled from the spec: `srp_sessend_override` bitfield of `otg_conf`. -/
def srp_sessend_override : RegField := ⟨0, 1⟩

/-- Modelled from the spec: `srp_sessend_value` bitfield of `otg_conf`. -/
def srp_sessend_value : RegField := ⟨1, 1⟩

/-- Modelled from the spec: `phy_sel` bitfield of `otg_conf`. -/
def phy_sel : RegField := ⟨2, 1⟩

/-- Modelled from the spec: `exchg_pins_override` bitfield of `otg_conf`. -/
def exchg_pins_override : RegField := ⟨5, 1⟩

/-- Modelled from the spec: `exchg_pins` bitfield of `otg_conf`. -/
def exchg_pins : RegField := ⟨6, 1⟩

/-- Modelled from the spec: `vrefh` bitfield of `otg_conf`, two bits wide. -/
def vrefh : RegField := ⟨7, 2⟩

/-- Modelled from the spec: `vrefl` bitfield of `otg_conf`, two bits wide. -/
def vrefl : RegField := ⟨9, 2⟩

/-- Modelled from the spec: `vref_override` bitfield of `otg_conf`. -/
def vref_override : RegField := ⟨11, 1⟩

/-- Modelled from the spec: `pad_pull_override` bitfield of `otg_conf`. -/
def pad_pull_override : RegField := ⟨12, 1⟩

/-- Modelled from the spec: `dp_pullup` bitfield of `otg_conf`. -/
def dp_pullup : RegField := ⟨13, 1⟩

/-- Modelled from the spec: `dp_pulldown` bitfield of `otg_conf`. -/
def dp_pulldown : RegField := ⟨14, 1⟩

/-- Modelled from the spec: `dm_pullup` bitfield of `otg_conf`. -/
def dm_pullup : RegField := ⟨15, 1⟩

/-- Modelled from the spec: `dm_pulldown` bitfield of `otg_conf`. -/
def dm_pulldown : RegField := ⟨16, 1⟩

/-- Modelled from the spec: `pullup_value` bitfield of `otg_conf`. -/
def pullup_value : RegField := ⟨17, 1⟩

/-- Modelled from the spec: `pad_enable` bitfield of `otg_conf`. -/
def pad_enable : RegField := ⟨18, 1⟩

/-- Modelled from the spec: `phy_tx_edge_sel` bitfield of `otg_conf`. -/
def phy_tx_edge_sel : RegField := ⟨21, 1⟩

end otg_conf

namespace test_conf

/-- Modelled from the spec: `test_enable` bitfield of `test_conf`. -/
def test_enable : RegField := ⟨0, 1⟩

/-- Modelled from the spec: `test_usb_wrap_oe` bitfield of `test_conf`. -/
def test_usb_wrap_oe : RegField := ⟨1, 1⟩

/-- Modelled from the spec: `test_tx_dp` bitfield of `test_conf`. -/
def test_tx_dp : RegField := ⟨2, 1⟩

/-- Modelled from the spec: `test_tx_dm` bitfield of `test_conf`. -/
def test_tx_dm : RegField := ⟨3, 1⟩

/-- Modelled from the spec: `test_rx_rcv` bitfield of `test_conf`. -/
def test_rx_rcv : RegField := ⟨4, 1⟩

/-- Modelled from the spec: `test_rx_dp` bitfield of `test_conf`. -/
def test_rx_dp : RegField := ⟨5, 1⟩

/-- Modelled from the spec: `test_rx_dm` bitfield of `test_conf`. -/
def test_rx_dm : RegField := ⟨6, 1⟩

end test_conf

namespace usb_conf

/-- Modelled from the spec: `sw_hw_usb_phy_sel` bitfield of the RTC bank's
`usb_conf` word. -/
def sw_hw_usb_phy_sel : RegField := ⟨18, 1⟩

/-- Modelled from the spec: `sw_usb_phy_sel` bitfield of the RTC bank's
`usb_conf` word. -/
def sw_usb_phy_sel : RegField := ⟨19, 1⟩

end usb_conf

/-- Modelled from the spec: the system bank's clock-gate bit
(`system_struct.h` is not under `src/`). -/
def perip_clk_en0_usb_clk_en : RegField := ⟨23, 1⟩

/-- Modelled from the spec: the system bank's reset bit
(`system_struct.h` is not under `src/`). -/
def perip_rst_en0_usb_rst : RegField := ⟨23, 1⟩

/-- Embedding of `usb_wrap_ll_phy_enable_srp_sessend_override`: writes
`srp_sessend_value = sessend` then `srp_sessend_override = 1`. -/
def usb_wrap_ll_phy_enable_srp_sessend_override (sessend : Bool) :
    List WriteEvent :=
  [ .field .otg_conf otg_conf.srp_sessend_value sessend.toNat
  , .field .otg_conf otg_conf.srp_sessend_override 1 ]

/-- Embedding of `usb_wrap_ll_phy_disable_srp_sessend_override`: writes
`srp_sessend_override = 0`. -/
def usb_wrap_ll_phy_disable_srp_sessend_override : List WriteEvent :=
  [ .field .otg_conf otg_conf.srp_sessend_override 0 ]

/-- Embedding of `usb_wrap_ll_phy_enable_external`: writes
`otg_conf.phy_sel = enable`, then `RTCCNTL.usb_conf.sw_hw_usb_phy_sel = 1`,
then `RTCCNTL.usb_conf.sw_usb_phy_sel = !enable`. -/
def usb_wrap_ll_phy_enable_external (enable : Bool) : List WriteEvent :=
  [ .field .otg_conf otg_conf.phy_sel enable.toNat
  , .field .usb_conf usb_conf.sw_hw_usb_phy_sel 1
  , .field .usb_conf usb_conf.sw_usb_phy_sel (!enable).toNat ]

/-- Embedding of `usb_wrap_ll_phy_enable_pin_exchg`: on enable writes
`exchg_pins = 1` then `exchg_pins_override = 1`; on disable writes
`exchg_pins_override = 0` then `exchg_pins = 0`. -/
def usb_wrap_ll_phy_enable_pin_exchg (enable : Bool) : List WriteEvent :=
  if enable then
    [ .field .otg_conf otg_conf.exchg_pins 1
    , .field .otg_conf otg_conf.exchg_pins_override 1 ]
  else
    [ .field .otg_conf otg_conf.exchg_pins_override 0
    , .field .otg_conf otg_conf.exchg_pins 0 ]

/-- Embedding of `usb_wrap_ll_phy_enable_vref_override`: writes
`vrefh = vrefh_step`, `vrefl = vrefl_step`, then `vref_override = 1`. -/
def usb_wrap_ll_phy_enable_vref_override (vrefh_step vrefl_step : Nat) :
    List WriteEvent :=
  [ .field .otg_conf otg_conf.vrefh vrefh_step
  , .field .otg_conf otg_conf.vrefl vrefl_step
  , .field .otg_conf otg_conf.vref_override 1 ]

/-- Embedding of `usb_wrap_ll_phy_disable_vref_override`: writes
`vref_override = 0`. -/
def usb_wrap_ll_phy_disable_vref_override : List WriteEvent :=
  [ .field .otg_conf otg_conf.vref_override 0 ]

/-- Embedding of `usb_wrap_ll_phy_enable_pull_override`: writes the four
pull bits in source order (`dp_pullup`, `dp_pulldown`, `dm_pullup`,
`dm_pulldown`) then `pad_pull_override = 1`. -/
def usb_wrap_ll_phy_enable_pull_override (dp_pu dm_pu dp_pd dm_pd : Bool) :
    List WriteEvent :=
  [ .field .otg_conf otg_conf.dp_pullup dp_pu.toNat
  , .field .otg_conf otg_conf.dp_pulldown dp_pd.toNat
  , .field .otg_conf otg_conf.dm_pullup dm_pu.toNat
  , .field .otg_conf otg_conf.dm_pulldown dm_pd.toNat
  , .field .otg_conf otg_conf.pad_pull_override 1 ]

/-- Embedding of `usb_wrap_ll_phy_disable_pull_override`: writes
`pad_pull_override = 0`. -/
def usb_wrap_ll_phy_disable_pull_override : List WriteEvent :=
  [ .field .otg_conf otg_conf.pad_pull_override 0 ]

/-- Embedding of `usb_wrap_ll_phy_set_pullup_strength`: writes
`pullup_value = strong`. -/
def usb_wrap_ll_phy_set_pullup_strength (strong : Bool) : List WriteEvent :=
  [ .field .otg_conf otg_conf.pullup_value strong.toNat ]

/-- Embedding of `usb_wrap_ll_phy_is_pad_enabled`: returns
`hw->otg_conf.pad_enable` converted to `bool` (nonzero is true). -/
def usb_wrap_ll_phy_is_pad_enabled (s : State) : Bool :=
  otg_conf.pad_enable.get s.otg_conf != 0

/-- Write trace of `usb_wrap_ll_phy_is_pad_enabled`: the function body is
a single `return` of a register read and performs no register write. -/
def usb_wrap_ll_phy_is_pad_enabled_writes : List WriteEvent := []

/-- Embedding of `usb_wrap_ll_phy_enable_pad`: writes
`pad_enable = enable`. -/
def usb_wrap_ll_phy_enable_pad (enable : Bool) : List WriteEvent :=
  [ .field .otg_conf otg_conf.pad_enable enable.toNat ]

/-- Embedding of `usb_wrap_ll_phy_set_tx_edge`: writes
`phy_tx_edge_sel = clk_neg_edge`. -/
def usb_wrap_ll_phy_set_tx_edge (clk_neg_edge : Bool) : List WriteEvent :=
  [ .field .otg_conf otg_conf.phy_tx_edge_sel clk_neg_edge.toNat ]

/-- Embedding of `usb_wrap_ll_phy_enable_test_mode`: writes
`test_conf.test_enable = enable`. -/
def usb_wrap_ll_phy_enable_test_mode (enable : Bool) : List WriteEvent :=
  [ .field .test_conf test_conf.test_enable enable.toNat ]

/-- Embedding of `usb_wrap_ll_phy_test_mode_set_signals`: copies
`hw->test_conf.val` into a local, assigns the six signal bitfields of the
local in source order, and performs one whole-word write of the composed
local back to `hw->test_conf.val`. -/
def usb_wrap_ll_phy_test_mode_set_signals
    (oen tx_dp tx_dm rx_dp rx_dm rx_rcv : Bool) (s : State) :
    List WriteEvent :=
  let v0 := s.test_conf
  let v1 := test_conf.test_usb_wrap_oe.set v0 oen.toNat
  let v2 := test_conf.test_tx_dp.set v1 tx_dp.toNat
  let v3 := test_conf.test_tx_dm.set v2 tx_dm.toNat
  let v4 := test_conf.test_rx_rcv.set v3 rx_rcv.toNat
  let v5 := test_conf.test_rx_dp.set v4 rx_dp.toNat
  let v6 := test_conf.test_rx_dm.set v5 rx_dm.toNat
  [ .word .test_conf v6 ]

/-- Embedding of `usb_wrap_ll_enable_bus_clock`: writes
`SYSTEM.perip_clk_en0.usb_clk_en = clk_en`. -/
def usb_wrap_ll_enable_bus_clock (clk_en : Bool) : List WriteEvent :=
  [ .field .perip_clk_en0 perip_clk_en0_usb_clk_en clk_en.toNat ]

/-- Embedding of `usb_wrap_ll_reset_register`: writes
`SYSTEM.perip_rst_en0.usb_rst = 1` then `SYSTEM.perip_rst_en0.usb_rst = 0`. -/
def usb_wrap_ll_reset_register : List WriteEvent :=
  [ .field .perip_rst_en0 perip_rst_en0_usb_rst 1
  , .field .perip_rst_en0 perip_rst_en0_usb_rst 0 ]

/-- Bits outside the written field, below or above, are unchanged
(explicit offsets, convenient for rewriting). -/
theorem testBit_setField_outside (lo wd : Nat) {w v i : Nat}
    (h : i < lo ∨ lo + wd ≤ i) :
    (setField w lo wd v).testBit i = w.testBit i := by
  rcases h with h | h
  · exact testBit_setField_low h
  · exact testBit_setField_high h

/-- A boolean written into a one-bit field is stored unchanged. -/
theorem toNat_mod_two_pow_one (b : Bool) : b.toNat % 2 ^ 1 = b.toNat := by
  cases b <;> rfl

/-- A concrete register state used to instantiate theorems with
hypotheses: `otg_conf` has bits 0 and 12 set, `test_conf` has bits 0 and 7
set (sentinel bits outside the fields the operations under test own). -/
def sampleState : State := ⟨4097, 129, 0, 0, 0⟩

/-- C1: for every boolean `enable`, `usb_wrap_ll_phy_enable_external`
leaves the wrap bank's `phy_sel` field equal to `enable`, the RTC bank's
`sw_usb_phy_sel` field equal to the complement of `enable`, and the RTC
bank's `sw_hw_usb_phy_sel` field equal to 1; in particular calling it
with true then immediately with false leaves `phy_sel = 0`,
`sw_usb_phy_sel = 1`, `sw_hw_usb_phy_sel = 1`. -/
theorem phy_enable_external_routing_spec (s : State) (enable : Bool) :
    otg_conf.phy_sel.get
      (applyWrites s (usb_wrap_ll_phy_enable_external enable)).otg_conf
      = enable.toNat ∧
    usb_conf.sw_usb_phy_sel.get
      (applyWrites s (usb_wrap_ll_phy_enable_external enable)).usb_conf
      = (!enable).toNat ∧
    usb_conf.sw_hw_usb_phy_sel.get
      (applyWrites s (usb_wrap_ll_phy_enable_external enable)).usb_conf
      = 1 ∧
    otg_conf.phy_sel.get
      (applyWrites (applyWrites s (usb_wrap_ll_phy_enable_external true))
        (usb_wrap_ll_phy_enable_external false)).otg_conf = 0 ∧
    usb_conf.sw_usb_phy_sel.get
      (applyWrites (applyWrites s (usb_wrap_ll_phy_enable_external true))
        (usb_wrap_ll_phy_enable_external false)).usb_conf = 1 ∧
    usb_conf.sw_hw_usb_phy_sel.get
      (applyWrites (applyWrites s (usb_wrap_ll_phy_enable_external true))
        (usb_wrap_ll_phy_enable_external false)).usb_conf = 1 := by
  refine ⟨?_, ?_, ?_, ?_, ?_, ?_⟩ <;>
    simp only [usb_wrap_ll_phy_enable_external, applyWrites, applyWrite,
      List.foldl, State.getReg, State.setReg, RegField.get, RegField.set,
      otg_conf.phy_sel, usb_conf.sw_usb_phy_sel, usb_conf.sw_hw_usb_phy_sel] <;>
    simp +decide only [getField_setField_frame, getField_setField_self,
      toNat_mod_two_pow_one]

/-- C2: in the write trace of `usb_wrap_ll_phy_enable_pin_exchg`, with
`enable = true` the write setting `exchg_pins` to 1 occurs strictly
before the write setting `exchg_pins_override` to 1, and with
`enable = false` the write clearing `exchg_pins_override` to 0 occurs
strictly before the write clearing `exchg_pins` to 0. -/
theorem phy_enable_pin_exchg_write_order :
    ((usb_wrap_ll_phy_enable_pin_exchg true).indexOf
        (WriteEvent.field Reg.otg_conf otg_conf.exchg_pins 1) <
      (usb_wrap_ll_phy_enable_pin_exchg true).indexOf
        (WriteEvent.field Reg.otg_conf otg_conf.exchg_pins_override 1)) ∧
    WriteEvent.field Reg.otg_conf otg_conf.exchg_pins 1
      ∈ usb_wrap_ll_phy_enable_pin_exchg true ∧
    WriteEvent.field Reg.otg_conf otg_conf.exchg_pins_override 1
      ∈ usb_wrap_ll_phy_enable_pin_exchg true ∧
    ((usb_wrap_ll_phy_enable_pin_exchg false).indexOf
        (WriteEvent.field Reg.otg_conf otg_conf.exchg_pins_override 0) <
      (usb_wrap_ll_phy_enable_pin_exchg false).indexOf
        (WriteEvent.field Reg.otg_conf otg_conf.exchg_pins 0)) ∧
    WriteEvent.field Reg.otg_conf otg_conf.exchg_pins_override 0
      ∈ usb_wrap_ll_phy_enable_pin_exchg false ∧
    WriteEvent.field Reg.otg_conf otg_conf.exchg_pins 0
      ∈ usb_wrap_ll_phy_enable_pin_exchg false := by
  decide

/-- C3: `usb_wrap_ll_reset_register` performs exactly two writes, both to
the reset bit `usb_rst`, first 1 then 0 with nothing in between, and on
return the reset bit reads 0 for every prior state. -/
theorem reset_register_spec (s : State) :
    usb_wrap_ll_reset_register =
      [ WriteEvent.field Reg.perip_rst_en0 perip_rst_en0_usb_rst 1
      , WriteEvent.field Reg.perip_rst_en0 perip_rst_en0_usb_rst 0 ] ∧
    perip_rst_en0_usb_rst.get
      (applyWrites s usb_wrap_ll_reset_register).perip_rst_en0 = 0 := by
  refine ⟨rfl, ?_⟩
  simp only [usb_wrap_ll_reset_register, applyWrites, applyWrite,
    List.foldl, State.getReg, State.setReg, RegField.get, RegField.set,
    perip_rst_en0_usb_rst]
  simp +decide only [getField_setField_frame, getField_setField_self]

/-- C4: for every prior register state and all six booleans,
`usb_wrap_ll_phy_test_mode_set_signals` overwrites exactly the six signal
fields of the test-configuration word, performs that update as a single
whole-word write of the composed value (its trace is that one write), and
every bit of the word outside the six fields — and every other register —
has the same value after the call as before it. -/
theorem phy_test_mode_set_signals_spec (s : State)
    (oen tx_dp tx_dm rx_dp rx_dm rx_rcv : Bool) :
    test_conf.test_usb_wrap_oe.get
      (applyWrites s (usb_wrap_ll_phy_test_mode_set_signals
        oen tx_dp tx_dm rx_dp rx_dm rx_rcv s)).test_conf = oen.toNat ∧
    test_conf.test_tx_dp.get
      (applyWrites s (usb_wrap_ll_phy_test_mode_set_signals
        oen tx_dp tx_dm rx_dp rx_dm rx_rcv s)).test_conf = tx_dp.toNat ∧
    test_conf.test_tx_dm.get
      (applyWrites s (usb_wrap_ll_phy_test_mode_set_signals
        oen tx_dp tx_dm rx_dp rx_dm rx_rcv s)).test_conf = tx_dm.toNat ∧
    test_conf.test_rx_dp.get
      (applyWrites s (usb_wrap_ll_phy_test_mode_set_signals
        oen tx_dp tx_dm rx_dp rx_dm rx_rcv s)).test_conf = rx_dp.toNat ∧
    test_conf.test_rx_dm.get
      (applyWrites s (usb_wrap_ll_phy_test_mode_set_signals
        oen tx_dp tx_dm rx_dp rx_dm rx_rcv s)).test_conf = rx_dm.toNat ∧
    test_conf.test_rx_rcv.get
      (applyWrites s (usb_wrap_ll_phy_test_mode_set_signals
        oen tx_dp tx_dm rx_dp rx_dm rx_rcv s)).test_conf = rx_rcv.toNat ∧
    usb_wrap_ll_phy_test_mode_set_signals oen tx_dp tx_dm rx_dp rx_dm rx_rcv s
      = [ WriteEvent.word Reg.test_conf
            (applyWrites s (usb_wrap_ll_phy_test_mode_set_signals
              oen tx_dp tx_dm rx_dp rx_dm rx_rcv s)).test_conf ] ∧
    (applyWrites s (usb_wrap_ll_phy_test_mode_set_signals
      oen tx_dp tx_dm rx_dp rx_dm rx_rcv s)).otg_conf = s.otg_conf ∧
    (applyWrites s (usb_wrap_ll_phy_test_mode_set_signals
      oen tx_dp tx_dm rx_dp rx_dm rx_rcv s)).usb_conf = s.usb_conf ∧
    (applyWrites s (usb_wrap_ll_phy_test_mode_set_signals
      oen tx_dp tx_dm rx_dp rx_dm rx_rcv s)).perip_clk_en0 = s.perip_clk_en0 ∧
    (applyWrites s (usb_wrap_ll_phy_test_mode_set_signals
      oen tx_dp tx_dm rx_dp rx_dm rx_rcv s)).perip_rst_en0 = s.perip_rst_en0 ∧
    ∀ i : Nat, i = 0 ∨ 7 ≤ i →
      (applyWrites s (usb_wrap_ll_phy_test_mode_set_signals
        oen tx_dp tx_dm rx_dp rx_dm rx_rcv s)).test_conf.testBit i
        = s.test_conf.testBit i := by
  refine ⟨?_, ?_, ?_, ?_, ?_, ?_, rfl, rfl, rfl, rfl, rfl, ?_⟩ <;>
    simp only [usb_wrap_ll_phy_test_mode_set_signals, applyWrites, applyWrite,
      List.foldl, State.getReg, State.setReg, RegField.get, RegField.set,
      test_conf.test_usb_wrap_oe, test_conf.test_tx_dp, test_conf.test_tx_dm,
      test_conf.test_rx_rcv, test_conf.test_rx_dp, test_conf.test_rx_dm] <;>
    try simp +decide only [getField_setField_frame, getField_setField_self,
      toNat_mod_two_pow_one]
  intro i hi
  rw [testBit_setField_outside 6 1 (by omega),
    testBit_setField_outside 5 1 (by omega),
    testBit_setField_outside 4 1 (by omega),
    testBit_setField_outside 3 1 (by omega),
    testBit_setField_outside 2 1 (by omega),
    testBit_setField_outside 1 1 (by omega)]

/-- C4 witness: at a concrete state whose test-configuration word has a
sentinel bit 7 set, calling the operation with all six inputs true leaves
bit 7 unchanged. -/
theorem phy_test_mode_set_signals_spec_witness :
    (applyWrites sampleState (usb_wrap_ll_phy_test_mode_set_signals
      true true true true true true sampleState)).test_conf.testBit 7
      = sampleState.test_conf.testBit 7 :=
  (phy_test_mode_set_signals_spec sampleState
    true true true true true true).2.2.2.2.2.2.2.2.2.2.2 7 (Or.inr (by decide))

/-- C5: each of the three disable-override operations writes 0 to its
override-active bit only (its trace is that single write), and leaves
every value field of its group unchanged. -/
theorem phy_disable_override_frame_spec (s : State) :
    usb_wrap_ll_phy_disable_srp_sessend_override =
      [WriteEvent.field Reg.otg_conf otg_conf.srp_sessend_override 0] ∧
    usb_wrap_ll_phy_disable_vref_override =
      [WriteEvent.field Reg.otg_conf otg_conf.vref_override 0] ∧
    usb_wrap_ll_phy_disable_pull_override =
      [WriteEvent.field Reg.otg_conf otg_conf.pad_pull_override 0] ∧
    otg_conf.srp_sessend_override.get
      (applyWrites s usb_wrap_ll_phy_disable_srp_sessend_override).otg_conf = 0 ∧
    otg_conf.srp_sessend_value.get
      (applyWrites s usb_wrap_ll_phy_disable_srp_sessend_override).otg_conf
      = otg_conf.srp_sessend_value.get s.otg_conf ∧
    otg_conf.vref_override.get
      (applyWrites s usb_wrap_ll_phy_disable_vref_override).otg_conf = 0 ∧
    otg_conf.vrefh.get
      (applyWrites s usb_wrap_ll_phy_disable_vref_override).otg_conf
      = otg_conf.vrefh.get s.otg_conf ∧
    otg_conf.vrefl.get
      (applyWrites s usb_wrap_ll_phy_disable_vref_override).otg_conf
      = otg_conf.vrefl.get s.otg_conf ∧
    otg_conf.pad_pull_override.get
      (applyWrites s usb_wrap_ll_phy_disable_pull_override).otg_conf = 0 ∧
    otg_conf.dp_pullup.get
      (applyWrites s usb_wrap_ll_phy_disable_pull_override).otg_conf
      = otg_conf.dp_pullup.get s.otg_conf ∧
    otg_conf.dm_pullup.get
      (applyWrites s usb_wrap_ll_phy_disable_pull_override).otg_conf
      = otg_conf.dm_pullup.get s.otg_conf ∧
    otg_conf.dp_pulldown.get
      (applyWrites s usb_wrap_ll_phy_disable_pull_override).otg_conf
      = otg_conf.dp_pulldown.get s.otg_conf ∧
    otg_conf.dm_pulldown.get
      (applyWrites s usb_wrap_ll_phy_disable_pull_override).otg_conf
      = otg_conf.dm_pulldown.get s.otg_conf := by
  refine ⟨rfl, rfl, rfl, ?_, ?_, ?_, ?_, ?_, ?_, ?_, ?_, ?_, ?_⟩ <;>
    simp only [usb_wrap_ll_phy_disable_srp_sessend_override,
      usb_wrap_ll_phy_disable_vref_override,
      usb_wrap_ll_phy_disable_pull_override, applyWrites, applyWrite,
      List.foldl, State.getReg, State.setReg, RegField.get, RegField.set,
      otg_conf.srp_sessend_override, otg_conf.srp_sessend_value,
      otg_conf.vref_override, otg_conf.vrefh, otg_conf.vrefl,
      otg_conf.pad_pull_override, otg_conf.dp_pullup, otg_conf.dm_pullup,
      otg_conf.dp_pulldown, otg_conf.dm_pulldown] <;>
    simp +decide only [getField_setField_frame, getField_setField_self]

/-- C6: for each override group, calling the enable operation with any
arguments and then immediately the disable operation leaves the group's
override-active bit equal to 0 and every other bit touched by the pair at
its last-written value: `exchg_pins = 0` for pin exchange, and for the
other three groups the value fields keep the values written by the enable
call. -/
theorem enable_disable_roundtrip_spec (s : State) (e sessend : Bool)
    (vh vl : Nat) (dp_pu dm_pu dp_pd dm_pd : Bool) :
    otg_conf.exchg_pins_override.get
      (applyWrites (applyWrites s (usb_wrap_ll_phy_enable_pin_exchg e))
        (usb_wrap_ll_phy_enable_pin_exchg false)).otg_conf = 0 ∧
    otg_conf.exchg_pins.get
      (applyWrites (applyWrites s (usb_wrap_ll_phy_enable_pin_exchg e))
        (usb_wrap_ll_phy_enable_pin_exchg false)).otg_conf = 0 ∧
    otg_conf.srp_sessend_override.get
      (applyWrites
        (applyWrites s (usb_wrap_ll_phy_enable_srp_sessend_override sessend))
        usb_wrap_ll_phy_disable_srp_sessend_override).otg_conf = 0 ∧
    otg_conf.srp_sessend_value.get
      (applyWrites
        (applyWrites s (usb_wrap_ll_phy_enable_srp_sessend_override sessend))
        usb_wrap_ll_phy_disable_srp_sessend_override).otg_conf
      = sessend.toNat ∧
    otg_conf.vref_override.get
      (applyWrites (applyWrites s (usb_wrap_ll_phy_enable_vref_override vh vl))
        usb_wrap_ll_phy_disable_vref_override).otg_conf = 0 ∧
    otg_conf.vrefh.get
      (applyWrites (applyWrites s (usb_wrap_ll_phy_enable_vref_override vh vl))
        usb_wrap_ll_phy_disable_vref_override).otg_conf = vh % 4 ∧
    otg_conf.vrefl.get
      (applyWrites (applyWrites s (usb_wrap_ll_phy_enable_vref_override vh vl))
        usb_wrap_ll_phy_disable_vref_override).otg_conf = vl % 4 ∧
    otg_conf.pad_pull_override.get
      (applyWrites
        (applyWrites s
          (usb_wrap_ll_phy_enable_pull_override dp_pu dm_pu dp_pd dm_pd))
        usb_wrap_ll_phy_disable_pull_override).otg_conf = 0 ∧
    otg_conf.dp_pullup.get
      (applyWrites
        (applyWrites s
          (usb_wrap_ll_phy_enable_pull_override dp_pu dm_pu dp_pd dm_pd))
        usb_wrap_ll_phy_disable_pull_override).otg_conf = dp_pu.toNat ∧
    otg_conf.dm_pullup.get
      (applyWrites
        (applyWrites s
          (usb_wrap_ll_phy_enable_pull_override dp_pu dm_pu dp_pd dm_pd))
        usb_wrap_ll_phy_disable_pull_override).otg_conf = dm_pu.toNat ∧
    otg_conf.dp_pulldown.get
      (applyWrites
        (applyWrites s
          (usb_wrap_ll_phy_enable_pull_override dp_pu dm_pu dp_pd dm_pd))
        usb_wrap_ll_phy_disable_pull_override).otg_conf = dp_pd.toNat ∧
    otg_conf.dm_pulldown.get
      (applyWrites
        (applyWrites s
          (usb_wrap_ll_phy_enable_pull_override dp_pu dm_pu dp_pd dm_pd))
        usb_wrap_ll_phy_disable_pull_override).otg_conf = dm_pd.toNat := by
  refine ⟨?_, ?_, ?_, ?_, ?_, ?_, ?_, ?_, ?_, ?_, ?_, ?_⟩
  case refine_1 | refine_2 =>
    cases e <;>
      simp [usb_wrap_ll_phy_enable_pin_exchg, applyWrites, applyWrite,
        List.foldl, State.getReg, State.setReg, RegField.get, RegField.set,
        otg_conf.exchg_pins, otg_conf.exchg_pins_override] <;>
      simp +decide only [getField_setField_frame, getField_setField_self]
  all_goals
    simp only [usb_wrap_ll_phy_enable_srp_sessend_override,
      usb_wrap_ll_phy_disable_srp_sessend_override,
      usb_wrap_ll_phy_enable_vref_override,
      usb_wrap_ll_phy_disable_vref_override,
      usb_wrap_ll_phy_enable_pull_override,
      usb_wrap_ll_phy_disable_pull_override, applyWrites, applyWrite,
      List.foldl, State.getReg, State.setReg, RegField.get, RegField.set,
      otg_conf.srp_sessend_override, otg_conf.srp_sessend_value,
      otg_conf.vref_override, otg_conf.vrefh, otg_conf.vrefl,
      otg_conf.pad_pull_override, otg_conf.dp_pullup, otg_conf.dm_pullup,
      otg_conf.dp_pulldown, otg_conf.dm_pulldown]
  all_goals
    simp +decide only [getField_setField_frame, getField_setField_self,
      toNat_mod_two_pow_one]
  all_goals rfl

/-- C7: `usb_wrap_ll_phy_enable_vref_override` stores both step arguments
truncated to the two-bit field width (modulo 4) and asserts the
override-active bit in the same call, with no software range validation;
with `vrefh_step = 2` and `vrefl_step = 1` the register reads back
`vrefh = 2`, `vrefl = 1`, `vref_override = 1`, and no bit of the word
outside those three fields — nor any other register — is altered. -/
theorem phy_enable_vref_override_spec (s : State) (vrefh_step vrefl_step : Nat) :
    otg_conf.vrefh.get
      (applyWrites s
        (usb_wrap_ll_phy_enable_vref_override vrefh_step vrefl_step)).otg_conf
      = vrefh_step % 4 ∧
    otg_conf.vrefl.get
      (applyWrites s
        (usb_wrap_ll_phy_enable_vref_override vrefh_step vrefl_step)).otg_conf
      = vrefl_step % 4 ∧
    otg_conf.vref_override.get
      (applyWrites s
        (usb_wrap_ll_phy_enable_vref_override vrefh_step vrefl_step)).otg_conf
      = 1 ∧
    otg_conf.vrefh.get
      (applyWrites s (usb_wrap_ll_phy_enable_vref_override 2 1)).otg_conf = 2 ∧
    otg_conf.vrefl.get
      (applyWrites s (usb_wrap_ll_phy_enable_vref_override 2 1)).otg_conf = 1 ∧
    otg_conf.vref_override.get
      (applyWrites s (usb_wrap_ll_phy_enable_vref_override 2 1)).otg_conf = 1 ∧
    (applyWrites s
      (usb_wrap_ll_phy_enable_vref_override vrefh_step vrefl_step)).test_conf
      = s.test_conf ∧
    (applyWrites s
      (usb_wrap_ll_phy_enable_vref_override vrefh_step vrefl_step)).usb_conf
      = s.usb_conf ∧
    (applyWrites s
      (usb_wrap_ll_phy_enable_vref_override vrefh_step vrefl_step)).perip_clk_en0
      = s.perip_clk_en0 ∧
    (applyWrites s
      (usb_wrap_ll_phy_enable_vref_override vrefh_step vrefl_step)).perip_rst_en0
      = s.perip_rst_en0 ∧
    ∀ i : Nat, i < 7 ∨ 12 ≤ i →
      (applyWrites s
        (usb_wrap_ll_phy_enable_vref_override vrefh_step vrefl_step)).otg_conf.testBit i
        = s.otg_conf.testBit i := by
  refine ⟨?_, ?_, ?_, ?_, ?_, ?_, rfl, rfl, rfl, rfl, ?_⟩ <;>
    simp only [usb_wrap_ll_phy_enable_vref_override, applyWrites, applyWrite,
      List.foldl, State.getReg, State.setReg, RegField.get, RegField.set,
      otg_conf.vrefh, otg_conf.vrefl, otg_conf.vref_override] <;>
    try (simp +decide only [getField_setField_frame, getField_setField_self] <;>
      rfl)
  intro i hi
  rw [testBit_setField_outside 11 1 (by omega),
    testBit_setField_outside 9 2 (by omega),
    testBit_setField_outside 7 2 (by omega)]

/-- C7 witness: at a concrete state whose `otg_conf` word has a sentinel
bit 12 set, calling the operation with steps 2 and 1 leaves bit 12
unchanged. -/
theorem phy_enable_vref_override_spec_witness :
    (applyWrites sampleState
      (usb_wrap_ll_phy_enable_vref_override 2 1)).otg_conf.testBit 12
      = sampleState.otg_conf.testBit 12 :=
  (phy_enable_vref_override_spec sampleState 2 1).2.2.2.2.2.2.2.2.2.2 12
    (Or.inr (by decide))

/-- C8: for every combination of the four booleans, including
electrically contradictory ones, `usb_wrap_ll_phy_enable_pull_override`
is a total function whose trace writes each of the four pull-direction
bits equal to its argument and then asserts `pad_pull_override`; the four
bits and the override bit read back accordingly, also when pull-up and
pull-down are both true on the same line. -/
theorem phy_enable_pull_override_total_spec (s : State)
    (dp_pu dm_pu dp_pd dm_pd : Bool) :
    usb_wrap_ll_phy_enable_pull_override dp_pu dm_pu dp_pd dm_pd =
      [ WriteEvent.field Reg.otg_conf otg_conf.dp_pullup dp_pu.toNat
      , WriteEvent.field Reg.otg_conf otg_conf.dp_pulldown dp_pd.toNat
      , WriteEvent.field Reg.otg_conf otg_conf.dm_pullup dm_pu.toNat
      , WriteEvent.field Reg.otg_conf otg_conf.dm_pulldown dm_pd.toNat
      , WriteEvent.field Reg.otg_conf otg_conf.pad_pull_override 1 ] ∧
    otg_conf.dp_pullup.get
      (applyWrites s
        (usb_wrap_ll_phy_enable_pull_override dp_pu dm_pu dp_pd dm_pd)).otg_conf
      = dp_pu.toNat ∧
    otg_conf.dm_pullup.get
      (applyWrites s
        (usb_wrap_ll_phy_enable_pull_override dp_pu dm_pu dp_pd dm_pd)).otg_conf
      = dm_pu.toNat ∧
    otg_conf.dp_pulldown.get
      (applyWrites s
        (usb_wrap_ll_phy_enable_pull_override dp_pu dm_pu dp_pd dm_pd)).otg_conf
      = dp_pd.toNat ∧
    otg_conf.dm_pulldown.get
      (applyWrites s
        (usb_wrap_ll_phy_enable_pull_override dp_pu dm_pu dp_pd dm_pd)).otg_conf
      = dm_pd.toNat ∧
    otg_conf.pad_pull_override.get
      (applyWrites s
        (usb_wrap_ll_phy_enable_pull_override dp_pu dm_pu dp_pd dm_pd)).otg_conf
      = 1 ∧
    otg_conf.dp_pullup.get
      (applyWrites s
        (usb_wrap_ll_phy_enable_pull_override true true true true)).otg_conf
      = 1 ∧
    otg_conf.dp_pulldown.get
      (applyWrites s
        (usb_wrap_ll_phy_enable_pull_override true true true true)).otg_conf
      = 1 ∧
    otg_conf.dm_pullup.get
      (applyWrites s
        (usb_wrap_ll_phy_enable_pull_override true true true true)).otg_conf
      = 1 ∧
    otg_conf.dm_pulldown.get
      (applyWrites s
        (usb_wrap_ll_phy_enable_pull_override true true true true)).otg_conf
      = 1 ∧
    otg_conf.pad_pull_override.get
      (applyWrites s
        (usb_wrap_ll_phy_enable_pull_override true true true true)).otg_conf
      = 1 := by
  refine ⟨rfl, ?_, ?_, ?_, ?_, ?_, ?_, ?_, ?_, ?_, ?_⟩ <;>
    simp only [usb_wrap_ll_phy_enable_pull_override, applyWrites, applyWrite,
      List.foldl, State.getReg, State.setReg, RegField.get, RegField.set,
      otg_conf.dp_pullup, otg_conf.dp_pulldown, otg_conf.dm_pullup,
      otg_conf.dm_pulldown, otg_conf.pad_pull_override] <;>
    simp +decide only [getField_setField_frame, getField_setField_self,
      toNat_mod_two_pow_one]

/-- C9: `usb_wrap_ll_phy_is_pad_enabled` returns the boolean value of the
`pad_enable` bit (in particular it reads back exactly what
`usb_wrap_ll_phy_enable_pad` wrote) and performs no writes, so every
register in every bank is unchanged by the call. -/
theorem phy_is_pad_enabled_pure_spec (s : State) :
    usb_wrap_ll_phy_is_pad_enabled s
      = decide (otg_conf.pad_enable.get s.otg_conf = 1) ∧
    (∀ e : Bool,
      usb_wrap_ll_phy_is_pad_enabled
        (applyWrites s (usb_wrap_ll_phy_enable_pad e)) = e) ∧
    usb_wrap_ll_phy_is_pad_enabled_writes = [] ∧
    applyWrites s usb_wrap_ll_phy_is_pad_enabled_writes = s := by
  refine ⟨?_, ?_, rfl, rfl⟩
  · simp only [usb_wrap_ll_phy_is_pad_enabled, RegField.get,
      otg_conf.pad_enable]
    have hlt := getField_lt s.otg_conf 18 1
    rw [pow_one] at hlt
    have h : getField s.otg_conf 18 1 = 0 ∨ getField s.otg_conf 18 1 = 1 := by
      omega
    rcases h with h | h <;> simp [h]
  · intro e
    simp only [usb_wrap_ll_phy_is_pad_enabled, usb_wrap_ll_phy_enable_pad,
      applyWrites, applyWrite, List.foldl, State.getReg, State.setReg,
      RegField.get, RegField.set, otg_conf.pad_enable]
    rw [getField_setField_self]
    cases e <;> rfl

/-- C10: `usb_wrap_ll_phy_test_mode_set_signals` leaves the `test_enable`
field unchanged for every prior register state and every choice of the
six signal arguments; the dedicated `usb_wrap_ll_phy_enable_test_mode` is
the operation that writes that field (its trace is that single write, and
the field reads back its argument). -/
theorem phy_test_mode_set_signals_preserves_test_enable (s : State)
    (oen tx_dp tx_dm rx_dp rx_dm rx_rcv e : Bool) :
    test_conf.test_enable.get
      (applyWrites s (usb_wrap_ll_phy_test_mode_set_signals
        oen tx_dp tx_dm rx_dp rx_dm rx_rcv s)).test_conf
      = test_conf.test_enable.get s.test_conf ∧
    usb_wrap_ll_phy_enable_test_mode e =
      [WriteEvent.field Reg.test_conf test_conf.test_enable e.toNat] ∧
    test_conf.test_enable.get
      (applyWrites s (usb_wrap_ll_phy_enable_test_mode e)).test_conf
      = e.toNat := by
  refine ⟨?_, rfl, ?_⟩ <;>
    simp only [usb_wrap_ll_phy_test_mode_set_signals,
      usb_wrap_ll_phy_enable_test_mode, applyWrites, applyWrite, List.foldl,
      State.getReg, State.setReg, RegField.get, RegField.set,
      test_conf.test_enable, test_conf.test_usb_wrap_oe, test_conf.test_tx_dp,
      test_conf.test_tx_dm, test_conf.test_rx_rcv, test_conf.test_rx_dp,
      test_conf.test_rx_dm] <;>
    simp +decide only [getField_setField_frame, getField_setField_self,
      toNat_mod_two_pow_one]

end UsbWrapLL
